import Mathlib

/-!
Shallow embedding of the pcbuild_assist compatibility and suggestion
services (`backend/app/services/compatibility_service.py` and
`backend/app/services/suggestion_service.py`).

Modelling conventions:
* a Python dict field is an `Option`-valued structure field (`none` = key
  absent; a key bound to `None` behaves the same for every access the
  services perform, so it is also `none`);
* Python numbers are `ℚ`; Python strings are `String`;
* Python truthiness is explicit: `None`, `""` and `0` are falsy;
* an optional component argument (`cpu=None`) is `Option Component`
  (an empty dict `{}` is falsy in Python and is likewise `none`);
* messages are an inductive type with one constructor per message literal
  of the source, so that the source's `"Warning" in msg` / `"Note" in msg`
  tests become total functions on constructors.
-/

/-- Python `a or b` where both operands are optional strings
(`specs.get(k) or comp.get(k)`): `a` when truthy, else `b` as-is. -/
def pyOrStr (a b : Option String) : Option String :=
  match a with
  | some s => if s = "" then b else some s
  | none => b

/-- Python `a or b` where `b` is an already-defaulted string
(`specs.get(k) or comp.get(k, "")`). -/
def pyOrStrD (a : Option String) (b : String) : String :=
  match a with
  | some s => if s = "" then b else s
  | none => b

/-- Truthiness of an optional string: `None` and `""` are falsy. -/
def strTruthy : Option String → Bool
  | none => false
  | some s => s != ""

/-- Python `a or b` where `a` is a numeric lookup and `b` an
already-defaulted number (`specs.get(k) or comp.get(k, d)`): the first
operand when nonzero, otherwise the second operand's value (which may
itself be `0`). -/
def pyOrNum (a : Option ℚ) (b : ℚ) : ℚ :=
  match a with
  | some q => if q = 0 then b else q
  | none => b

/-- Python `int()` on a number: truncation toward zero. -/
def pyInt (q : ℚ) : ℤ :=
  if 0 ≤ q then ⌊q⌋ else ⌈q⌉

/-- The `specs` sub-dict of a component (only the keys the services read). -/
structure Specs where
  socket : Option String := none
  type : Option String := none
  memory_type : Option String := none
  form_factor : Option String := none
  tdp : Option ℚ := none
  wattage : Option ℚ := none
  core_count : Option ℚ := none
deriving DecidableEq

/-- The `rating` sub-dict (`{"average": ..., "count": ...}`). -/
structure Rating where
  average : Option ℚ := none
  count : Option ℚ := none
deriving DecidableEq

/-- A component record; every key the two services read. -/
structure Component where
  name : Option String := none
  price : Option ℚ := none
  performance_tier : Option String := none
  socket : Option String := none
  type : Option String := none
  memory_type : Option String := none
  form_factor : Option String := none
  tdp : Option ℚ := none
  wattage : Option ℚ := none
  rating : Option Rating := none
  average_rating : Option ℚ := none
  review_count : Option ℚ := none
  specs : Specs := {}
deriving DecidableEq

/-- The message literals produced by `CompatibilityService`, one
constructor per `return` site, keeping the interpolated values. -/
inductive Msg where
  | missingSocket
  | socketOk (s : String)
  | socketMismatch (a b : String)
  | memMissingWarning
  | memOk (d : String)
  | memMismatch (a b : String)
  | memVerifyWarning
  | gpuMbMiniItxNote
  | gpuMbOk
  | gpuPsuOk (w total : ℚ)
  | gpuPsuInsufficient (needed w : ℚ)
  | cpuPsuOk (tdp : ℚ)
  | cpuPsuInsufficient (needed w : ℚ)
deriving DecidableEq

/-- Python `"Warning" in msg`: true exactly for the two message literals
containing the word `Warning` ("⚠ Warning: Missing memory type
information", "⚠ Warning: Cannot verify memory compatibility"). -/
def Msg.hasWarning : Msg → Bool
  | .memMissingWarning => true
  | .memVerifyWarning => true
  | _ => false

/-- Python `"Note" in msg`: true exactly for the Mini ITX message
("✓ Compatible (Note: Mini ITX has 1 PCIe slot)"). -/
def Msg.hasNote : Msg → Bool
  | .gpuMbMiniItxNote => true
  | _ => false

/-- Python `needle in hay` substring containment over character lists. -/
def listContainsSub (needle : List Char) : List Char → Bool
  | [] => needle.isEmpty
  | c :: rest => needle.isPrefixOf (c :: rest) || listContainsSub needle rest

/-- Python `needle in hay` on strings. -/
def strContainsSub (hay needle : String) : Bool :=
  listContainsSub needle.data hay.data

/-- Python `s.upper()[:4]`. -/
def first4Upper (s : String) : String :=
  String.mk ((s.data.map Char.toUpper).take 4)

/-- `CompatibilityService.check_cpu_motherboard`. -/
def check_cpu_motherboard (cpu motherboard : Component) : Bool × Msg :=
  let cpu_socket := pyOrStr cpu.specs.socket cpu.socket
  let mb_socket := pyOrStr motherboard.specs.socket motherboard.socket
  if !strTruthy cpu_socket || !strTruthy mb_socket then
    (false, .missingSocket)
  else if cpu_socket = mb_socket then
    (true, .socketOk (cpu_socket.getD ""))
  else
    (false, .socketMismatch (cpu_socket.getD "") (mb_socket.getD ""))

/-- `CompatibilityService.check_ram_motherboard`.  In the source the DDR
prefixes are computed by `x.upper()[:4] if x else None`; on this branch
both inputs are already truthy, so the prefixes are the plain 4-character
uppercased prefixes and the conditional never yields `None`. -/
def check_ram_motherboard (ram motherboard : Component) : Bool × Msg :=
  let ram_type := pyOrStr ram.specs.type ram.type
  let mb_memory_type := pyOrStr motherboard.specs.memory_type motherboard.memory_type
  if !strTruthy ram_type || !strTruthy mb_memory_type then
    (true, .memMissingWarning)
  else
    let ram_ddr := first4Upper (ram_type.getD "")
    let mb_ddr := first4Upper (mb_memory_type.getD "")
    if ram_ddr != "" && mb_ddr != "" && ram_ddr == mb_ddr then
      (true, .memOk ram_ddr)
    else if ram_ddr != "" && mb_ddr != "" then
      (false, .memMismatch ram_ddr mb_ddr)
    else
      (true, .memVerifyWarning)

/-- `CompatibilityService.check_gpu_motherboard` (the gpu argument is
unused in the source as well). -/
def check_gpu_motherboard (_gpu motherboard : Component) : Bool × Msg :=
  let form_factor := pyOrStrD motherboard.specs.form_factor (motherboard.form_factor.getD "")
  if form_factor != "" && strContainsSub form_factor "Mini ITX" then
    (true, .gpuMbMiniItxNote)
  else
    (true, .gpuMbOk)

/-- `CompatibilityService.check_gpu_psu`. -/
def check_gpu_psu (gpu psu : Component) (cpu : Option Component := none) : Bool × Msg :=
  let gpu_tdp := pyOrNum gpu.specs.tdp (gpu.tdp.getD 200)
  let psu_wattage := pyOrNum psu.specs.wattage (psu.wattage.getD 0)
  let cpu_tdp : ℚ :=
    match cpu with
    | some c => pyOrNum c.specs.tdp (c.tdp.getD 125)
    | none => 0
  let total_power := gpu_tdp + cpu_tdp + 150
  let recommended_psu := pyInt (total_power * 1.25)
  if (recommended_psu : ℚ) ≤ psu_wattage then
    (true, .gpuPsuOk psu_wattage total_power)
  else
    (false, .gpuPsuInsufficient (recommended_psu : ℚ) psu_wattage)

/-- `CompatibilityService.check_cpu_psu`. -/
def check_cpu_psu (cpu psu : Component) : Bool × Msg :=
  let cpu_tdp := pyOrNum cpu.specs.tdp (cpu.tdp.getD 125)
  let psu_wattage := pyOrNum psu.specs.wattage (psu.wattage.getD 0)
  let min_required := cpu_tdp + 100
  if min_required ≤ psu_wattage then
    (true, .cpuPsuOk cpu_tdp)
  else
    (false, .cpuPsuInsufficient min_required psu_wattage)

inductive Severity where
  | error
  | warning
  | success
  | info
deriving DecidableEq

/-- One entry of the `checks` list built by `check_full_build`. -/
structure CheckResult where
  check : String
  compatible : Bool
  message : Msg
  severity : Severity
deriving DecidableEq

/-- A build: a sparse mapping of roles to components. -/
structure Build where
  cpu : Option Component := none
  motherboard : Option Component := none
  gpu : Option Component := none
  psu : Option Component := none
  ram : Option Component := none
deriving DecidableEq

/-- The result dict of `check_full_build`. -/
structure BuildReport where
  compatible : Bool
  checks : List CheckResult
  warnings : List Msg
  total_power : ℚ
  recommended_psu : ℤ
deriving DecidableEq

/-- `CompatibilityService.check_full_build`.  The source starts from
`compatible = True` and flips it to `False` in four places; here the flag
is the conjunction of the four non-flip conditions, and each appended
check/warning is reproduced in source order. -/
def check_full_build (build : Build) : BuildReport :=
  let cpuMb : Option (Bool × Msg) :=
    match build.cpu, build.motherboard with
    | some c, some m => some (check_cpu_motherboard c m)
    | _, _ => none
  let ramMb : Option (Bool × Msg) :=
    match build.ram, build.motherboard with
    | some r, some m => some (check_ram_motherboard r m)
    | _, _ => none
  let gpuMb : Option (Bool × Msg) :=
    match build.gpu, build.motherboard with
    | some g, some m => some (check_gpu_motherboard g m)
    | _, _ => none
  let gpuPsu : Option (Bool × Msg) :=
    match build.psu, build.gpu with
    | some p, some g => some (check_gpu_psu g p build.cpu)
    | _, _ => none
  let cpuPsu : Option (Bool × Msg) :=
    match build.psu, build.cpu with
    | some p, some c => some (check_cpu_psu c p)
    | _, _ => none
  let checks : List CheckResult :=
    (cpuMb.map fun r =>
      { check := "CPU-Motherboard Socket", compatible := r.1, message := r.2,
        severity := if !r.1 then .error else .success }).toList
    ++ (ramMb.map fun r =>
      { check := "RAM-Motherboard Memory Type", compatible := r.1, message := r.2,
        severity := if !r.1 then .error else if r.2.hasWarning then .warning else .success }).toList
    ++ (gpuMb.map fun r =>
      { check := "GPU-Motherboard PCIe", compatible := r.1, message := r.2,
        severity := if r.1 then .info else .warning }).toList
    ++ (gpuPsu.map fun r =>
      { check := "PSU Wattage (GPU)", compatible := r.1, message := r.2,
        severity := if !r.1 then .error else .success }).toList
    ++ (cpuPsu.map fun r =>
      { check := "PSU Wattage (CPU)", compatible := r.1, message := r.2,
        severity := if !r.1 then .error else .success }).toList
  let compatible :=
    (match cpuMb with | some r => r.1 | none => true)
    && (match ramMb with | some r => r.1 || r.2.hasWarning | none => true)
    && (match gpuPsu with | some r => r.1 | none => true)
    && (match cpuPsu with | some r => r.1 | none => true)
  let warnings : List Msg :=
    (match ramMb with
     | some r => if !r.1 && !r.2.hasWarning then [] else if r.2.hasWarning then [r.2] else []
     | none => [])
    ++ (match gpuMb with
     | some r => if r.2.hasNote || r.2.hasWarning then [r.2] else []
     | none => [])
  let cpu_tdp : ℚ :=
    match build.cpu with
    | some c => pyOrNum c.specs.tdp (c.tdp.getD 0)
    | none => 0
  let gpu_tdp : ℚ :=
    match build.gpu with
    | some g => pyOrNum g.specs.tdp (g.tdp.getD 0)
    | none => 0
  let total_power := cpu_tdp + gpu_tdp + 150
  { compatible := compatible, checks := checks, warnings := warnings,
    total_power := total_power, recommended_psu := pyInt (total_power * 1.25) }

/-! ### Multi-factor scoring system (`suggestion_service.py`) -/

/-- `ComponentScorer.WEIGHTS`. -/
structure Weights where
  tier_match : ℚ
  value_score : ℚ
  popularity : ℚ
  power_efficiency : ℚ
  future_proof : ℚ
deriving DecidableEq

def WEIGHTS : Weights :=
  { tier_match := 0.25, value_score := 0.25, popularity := 0.20,
    power_efficiency := 0.15, future_proof := 0.15 }

/-- `ComponentScorer.TIER_THRESHOLDS.get(component_type, {'high': 500, 'mid': 200})`,
returned as the pair `(high, mid)`. -/
def TIER_THRESHOLDS (component_type : String) : ℚ × ℚ :=
  if component_type = "CPU" then (400, 200)
  else if component_type = "GPU" then (800, 400)
  else if component_type = "Motherboard" then (300, 150)
  else if component_type = "Memory" then (150, 80)
  else if component_type = "Power Supply" then (150, 80)
  else if component_type = "Internal Hard Drive" then (200, 100)
  else (500, 200)

/-- `['budget', 'mid-range', 'high-end'].index(s)`, with the `ValueError`
of a missing entry as `none`. -/
def tierIndex (s : String) : Option ℕ :=
  if s = "budget" then some 0
  else if s = "mid-range" then some 1
  else if s = "high-end" then some 2
  else none

/-- `ComponentScorer.calculate_tier_match_score`.  The `try` block indexes
the component tier and then the target tier; a `ValueError` from either
lands in the `except` branch returning 50. -/
def calculate_tier_match_score (component : Component) (target_tier : String) : ℚ :=
  let comp_tier := component.performance_tier.getD "mid-range"
  match tierIndex comp_tier, tierIndex target_tier with
  | some comp_idx, some target_idx =>
    if comp_idx = target_idx then 100
    else if comp_idx = target_idx + 1 ∨ target_idx = comp_idx + 1 then 70
    else 40
  | _, _ => 50

/-- `ComponentScorer.calculate_value_score`. -/
def calculate_value_score (component : Component) (component_type : String) : ℚ :=
  let price := component.price.getD 0
  if price ≤ 0 then 50
  else
    let thresholds := TIER_THRESHOLDS component_type
    let tier := component.performance_tier.getD "mid-range"
    let expected : ℚ × ℚ :=
      if tier = "budget" then (0, thresholds.2)
      else if tier = "mid-range" then (thresholds.2, thresholds.1)
      else if tier = "high-end" then (thresholds.1, thresholds.1 * 2)
      else (0, 500)
    let expected_mid := (expected.1 + expected.2) / 2
    if price ≤ expected_mid then
      min 100 (70 + 30 * (1 - price / max expected_mid 1))
    else
      let overage_ratio := (price - expected_mid) / max expected_mid 1
      max 30 (100 - overage_ratio * 50)

/-- The `avg_rating` local of `calculate_popularity_score`: the nested
`rating.average` when truthy, else the legacy `average_rating` field
(defaulted to 0). -/
def effectiveAverageRating (component : Component) : ℚ :=
  let avg := (component.rating.bind Rating.average).getD 0
  if avg = 0 then component.average_rating.getD 0 else avg

/-- The `review_count` local of `calculate_popularity_score`. -/
def effectiveReviewCount (component : Component) : ℚ :=
  let cnt := (component.rating.bind Rating.count).getD 0
  if cnt = 0 then component.review_count.getD 0 else cnt

/-- `ComponentScorer.calculate_popularity_score`.  A `rating` value that is
not a dict yields `avg = 0, count = 0` in the source, the same as an empty
dict, so it needs no separate representation. -/
def calculate_popularity_score (component : Component) : ℚ :=
  let avg_rating := effectiveAverageRating component
  let review_count := effectiveReviewCount component
  let rating_score := if avg_rating = 0 then 50 else avg_rating / 5 * 100
  let review_bonus := min 20 (review_count / 50 * 20)
  min 100 (rating_score * 0.8 + review_bonus)

/-- `ComponentScorer.calculate_power_efficiency_score`. -/
def calculate_power_efficiency_score (component : Component) : ℚ :=
  let tdp := pyOrNum component.specs.tdp (component.tdp.getD 0)
  let tier := component.performance_tier.getD "mid-range"
  if tdp = 0 then 50
  else
    let expected : ℚ × ℚ :=
      if tier = "budget" then (35, 65)
      else if tier = "mid-range" then (65, 125)
      else if tier = "high-end" then (125, 250)
      else (65, 125)
    if tdp ≤ expected.1 then 100
    else if tdp ≤ expected.2 then
      100 - (tdp - expected.1) / (expected.2 - expected.1) * 40
    else
      max 20 (60 - (tdp - expected.2) / expected.2 * 40)

/-- Digit characters to a natural number, as Python `int` on the matched
group. -/
def digitsToNat (l : List Char) : ℕ :=
  l.foldl (fun n c => 10 * n + (c.toNat - 48)) 0

/-- Leftmost match of the Python regex `(\d+)\s*gb` over a (lowercased)
character list, returning `int(group(1))`.  `re.search` tries each start
position from the left; `\d+` is greedy and backtracking never helps
because a shorter digit match leaves a digit where `g` must follow. -/
def vramSearch : List Char → Option ℕ
  | [] => none
  | c :: rest =>
    if c.isDigit then
      let ds := (c :: rest).takeWhile Char.isDigit
      let after := ((c :: rest).dropWhile Char.isDigit).dropWhile Char.isWhitespace
      if [ 'g', 'b' ].isPrefixOf after then some (digitsToNat ds) else vramSearch rest
    else vramSearch rest

/-- Leftmost match of the Python regex `(\d{4,5})`: the first position
with at least four consecutive digits, matching greedily up to five. -/
def speedSearch : List Char → Option ℕ
  | [] => none
  | c :: rest =>
    if c.isDigit then
      let ds := (c :: rest).takeWhile Char.isDigit
      if 4 ≤ ds.length then some (digitsToNat (ds.take 5)) else speedSearch rest
    else speedSearch rest

/-- `ComponentScorer.calculate_future_proof_score`. -/
def calculate_future_proof_score (component : Component) (component_type : String) : ℚ :=
  let specs := component.specs
  let name : List Char := (component.name.getD "").data.map Char.toLower
  let score : ℚ := 50
  let score :=
    if component_type = "GPU" then
      let score :=
        match vramSearch name with
        | some vram =>
          if 16 ≤ vram then score + 30
          else if 12 ≤ vram then score + 20
          else if 8 ≤ vram then score + 10
          else score
        | none => score
      if ["4090", "4080", "4070", "7900", "7800"].any (fun x => listContainsSub x.data name) then
        score + 20
      else if ["3080", "3070", "6800", "6900"].any (fun x => listContainsSub x.data name) then
        score + 10
      else score
    else if component_type = "CPU" then
      let cores := specs.core_count.getD 0
      let score :=
        if 16 ≤ cores then score + 25
        else if 12 ≤ cores then score + 20
        else if 8 ≤ cores then score + 15
        else if 6 ≤ cores then score + 10
        else score
      let socket := pyOrStrD specs.socket (component.socket.getD "")
      if socket = "AM5" ∨ socket = "LGA1700" then score + 15
      else if socket = "AM4" ∨ socket = "LGA1200" then score + 5
      else score
    else if component_type = "Motherboard" then
      let mem_type := specs.memory_type.getD ""
      let score :=
        if strContainsSub (String.mk (mem_type.data.map Char.toUpper)) "DDR5" then score + 20
        else score
      if listContainsSub "pcie 5".data name || listContainsSub "pcie5".data name then score + 15
      else score
    else if component_type = "Memory" then
      let score := if listContainsSub "ddr5".data name then score + 25 else score
      match speedSearch name with
      | some speed =>
        if 6000 ≤ speed then score + 15
        else if 5200 ≤ speed then score + 10
        else score
      | none => score
    else score
  min 100 score

/-- Python `round` to the nearest integer, ties to even. -/
def roundHalfEven (q : ℚ) : ℤ :=
  let f := ⌊q⌋
  let r := q - (f : ℚ)
  if r < 1 / 2 then f
  else if 1 / 2 < r then f + 1
  else if f % 2 = 0 then f else f + 1

/-- Python `round(x, 1)`. -/
def pyRound1 (q : ℚ) : ℚ :=
  (roundHalfEven (q * 10) : ℚ) / 10

/-- The `breakdown` dict of `calculate_total_score`. -/
structure ScoreBreakdown where
  tier_match : ℚ
  value_score : ℚ
  popularity : ℚ
  power_efficiency : ℚ
  future_proof : ℚ
deriving DecidableEq

/-- The return value of `calculate_total_score`. -/
structure TotalScore where
  total : ℚ
  breakdown : ScoreBreakdown
deriving DecidableEq

/-- `ComponentScorer.calculate_total_score`. -/
def calculate_total_score (component : Component) (component_type : String)
    (target_tier : String := "mid-range") : TotalScore :=
  let s_tier := calculate_tier_match_score component target_tier
  let s_value := calculate_value_score component component_type
  let s_pop := calculate_popularity_score component
  let s_power := calculate_power_efficiency_score component
  let s_future := calculate_future_proof_score component component_type
  let total := s_tier * WEIGHTS.tier_match + s_value * WEIGHTS.value_score
    + s_pop * WEIGHTS.popularity + s_power * WEIGHTS.power_efficiency
    + s_future * WEIGHTS.future_proof
  { total := pyRound1 total,
    breakdown :=
      { tier_match := pyRound1 s_tier, value_score := pyRound1 s_value,
        popularity := pyRound1 s_pop, power_efficiency := pyRound1 s_power,
        future_proof := pyRound1 s_future } }

/-- A candidate with its attached `recommendation_score`, as the suggestion
endpoints store it back into the component dict. -/
structure Scored where
  component : Component
  recommendation_score : ℚ
deriving DecidableEq

/-- The scoring step of the suggestion endpoints: attach
`calculate_total_score(...)['total']` as `recommendation_score`. -/
def scoreAttach (component : Component) (component_type target_tier : String) : Scored :=
  { component := component,
    recommendation_score := (calculate_total_score component component_type target_tier).total }

/-- One step of a stable descending insertion sort on
`recommendation_score`: the new element goes after every already-placed
element with an equal or higher score. -/
def insertDesc (x : Scored) : List Scored → List Scored
  | [] => [x]
  | y :: ys =>
    if y.recommendation_score < x.recommendation_score then x :: y :: ys
    else y :: insertDesc x ys

/-- Python `list.sort(key=lambda x: x['recommendation_score'], reverse=True)`:
a stable sort putting higher scores first, equal scores keeping their
input order.  Modelled as a stable insertion sort, which computes the same
function as the source's Timsort. -/
def sortByScoreDesc (l : List Scored) : List Scored :=
  l.foldl (fun acc x => insertDesc x acc) []

/-- The score-and-sort ranking step shared by the suggestion endpoints
(`suggest_cpus` lines 279-290, `suggest_compatible_gpu` lines 336-347):
score every candidate, then sort by recommendation score descending. -/
def rank_candidates (candidates : List Component) (component_type target_tier : String) :
    List Scored :=
  sortByScoreDesc (candidates.map fun c => scoreAttach c component_type target_tier)

/-- The descending order the ranking step sorts by. -/
def scoreGE (a b : Scored) : Prop :=
  b.recommendation_score ≤ a.recommendation_score

/-- The more expensive of two equally-scored candidates (price 100.4). -/
def cvHigh : Component :=
  { performance_tier := some "mid-range", price := some (502/5) }

/-- The cheaper of two equally-scored candidates (price 100). -/
def cvLow : Component :=
  { performance_tier := some "mid-range", price := some 100 }

/-! ### Helper lemmas -/

/-- Evaluation rule for `Int.floor` on rationals. -/
theorem floorQ_eq (z : ℤ) (q : ℚ) (h1 : (z : ℚ) ≤ q) (h2 : q < z + 1) : ⌊q⌋ = z :=
  Int.floor_eq_iff.mpr ⟨h1, h2⟩

/-- Evaluation rule for `Int.ceil` on rationals. -/
theorem ceilQ_eq (z : ℤ) (q : ℚ) (h1 : (z : ℚ) - 1 < q) (h2 : q ≤ z) : ⌈q⌉ = z :=
  Int.ceil_eq_iff.mpr ⟨h1, h2⟩

/-- `check_gpu_motherboard` always reports compatible (both source branches
return `True`). -/
theorem check_gpu_motherboard_fst (g m : Component) : (check_gpu_motherboard g m).1 = true := by
  simp only [check_gpu_motherboard]
  split <;> rfl

/-- The RAM checker never returns incompatible together with a warning
message, so the full-build flag update `r.1 || warning` collapses to
`r.1`. -/
theorem ram_warn_or (r m : Component) :
    ((check_ram_motherboard r m).1 || Msg.hasWarning (check_ram_motherboard r m).2) =
      (check_ram_motherboard r m).1 := by
  unfold check_ram_motherboard
  dsimp only
  split
  · rfl
  · split
    · rfl
    · split
      · rfl
      · rfl

/-- Inserting an element permutes to consing it. -/
theorem insertDesc_perm (x : Scored) (l : List Scored) : (insertDesc x l).Perm (x :: l) := by
  induction l with
  | nil => exact List.Perm.refl _
  | cons y ys ih =>
    simp only [insertDesc]
    split
    · exact List.Perm.refl _
    · exact (ih.cons y).trans (List.Perm.swap x y ys)

/-- The insertion-sort fold permutes to appending the input. -/
theorem foldl_insertDesc_perm (l : List Scored) :
    ∀ acc, (l.foldl (fun a x => insertDesc x a) acc).Perm (acc ++ l) := by
  induction l with
  | nil => intro acc; simp
  | cons x xs ih =>
    intro acc
    simp only [List.foldl_cons]
    refine (ih (insertDesc x acc)).trans ?_
    refine ((insertDesc_perm x acc).append_right xs).trans ?_
    exact List.perm_middle.symm

/-- Insertion preserves sortedness for the descending order. -/
theorem insertDesc_sorted (x : Scored) {l : List Scored} (h : l.Sorted scoreGE) :
    (insertDesc x l).Sorted scoreGE := by
  induction l with
  | nil => simp [insertDesc]
  | cons y ys ih =>
    rw [List.sorted_cons] at h
    simp only [insertDesc]
    split
    next hlt =>
      rw [List.sorted_cons]
      refine ⟨?_, List.sorted_cons.mpr h⟩
      intro b hb
      rcases List.mem_cons.mp hb with hb | hb
      · subst hb; exact le_of_lt hlt
      · exact le_trans (h.1 b hb) (le_of_lt hlt)
    next hge =>
      rw [List.sorted_cons]
      refine ⟨?_, ih h.2⟩
      intro b hb
      rcases List.mem_cons.mp ((insertDesc_perm x ys).subset hb) with hb | hb
      · subst hb; exact not_lt.mp hge
      · exact h.1 b hb

/-- The insertion-sort fold sorts for the descending order. -/
theorem foldl_insertDesc_sorted (l : List Scored) :
    ∀ acc, acc.Sorted scoreGE → (l.foldl (fun a x => insertDesc x a) acc).Sorted scoreGE := by
  induction l with
  | nil => intro acc h; exact h
  | cons x xs ih =>
    intro acc h
    simp only [List.foldl_cons]
    exact ih _ (insertDesc_sorted x h)

/-- Stability of one insertion step: filtering the result for any fixed
score value appends the new element (when it has that score) AFTER the
already-placed elements of that score. -/
theorem filter_insertDesc (q : ℚ) (x : Scored) {l : List Scored} (hl : l.Sorted scoreGE) :
    (insertDesc x l).filter (fun s => decide (s.recommendation_score = q)) =
      l.filter (fun s => decide (s.recommendation_score = q))
        ++ (if x.recommendation_score = q then [x] else []) := by
  induction l with
  | nil =>
    simp only [insertDesc, List.filter_nil, List.nil_append, List.filter]
    split <;> simp_all
  | cons y ys ih =>
    rw [List.sorted_cons] at hl
    simp only [insertDesc]
    split
    next hlt =>
      by_cases hxq : x.recommendation_score = q
      · have hall : ∀ b ∈ y :: ys, ¬(decide (b.recommendation_score = q) = true) := by
          intro b hb
          rcases List.mem_cons.mp hb with hb | hb
          · subst hb
            simp only [decide_eq_true_eq]
            intro hbq
            rw [hbq, ← hxq] at hlt
            exact lt_irrefl _ hlt
          · simp only [decide_eq_true_eq]
            intro hbq
            have hby : b.recommendation_score ≤ y.recommendation_score := hl.1 b hb
            rw [hbq, ← hxq] at hby
            exact absurd (lt_of_lt_of_le hlt hby) (lt_irrefl _)
        have hnil : (y :: ys).filter (fun s => decide (s.recommendation_score = q)) = [] :=
          List.filter_eq_nil_iff.mpr hall
        simp [List.filter_cons, hxq, hnil]
      · simp [List.filter_cons, hxq]
    next hge =>
      have ihys := ih hl.2
      simp only [List.filter_cons, ihys]
      split <;> simp

/-- Stability of the insertion-sort fold, as filter preservation. -/
theorem foldl_insertDesc_filter (q : ℚ) (l : List Scored) :
    ∀ acc, acc.Sorted scoreGE →
      (l.foldl (fun a x => insertDesc x a) acc).filter
          (fun s => decide (s.recommendation_score = q))
        = acc.filter (fun s => decide (s.recommendation_score = q))
          ++ l.filter (fun s => decide (s.recommendation_score = q)) := by
  induction l with
  | nil => intro acc _; simp
  | cons x xs ih =>
    intro acc h
    simp only [List.foldl_cons]
    rw [ih _ (insertDesc_sorted x h), filter_insertDesc q x h]
    simp only [List.filter_cons, List.append_assoc]
    split <;> simp_all

/-! ### Theorems for the claims -/


/-- C1 (counterexample): the spec's `recommended = ceil(total_power * 1.25)`
fails on the code.  For `gpu.tdp = 300`, `cpu.tdp = 125` the total power is
575 and `ceil(575 * 1.25) = 719`, yet a 718 W PSU is accepted, because the
source truncates with `int(...)`. -/
theorem c1_ceil_counterexample :
    (check_gpu_psu { specs := { tdp := some 300 } } { specs := { wattage := some 718 } }
        (some { specs := { tdp := some 125 } })).1 = true
    ∧ (718 : ℚ) < (⌈((300 : ℚ) + 125 + 150) * 1.25⌉ : ℚ) := by
  have hf : (⌊(2875/4 : ℚ)⌋ : ℤ) = 718 := floorQ_eq _ _ (by norm_num) (by norm_num)
  have hc : (⌈(2875/4 : ℚ)⌉ : ℤ) = 719 := ceilQ_eq _ _ (by norm_num) (by norm_num)
  constructor
  · norm_num [check_gpu_psu, pyOrNum, pyInt, hf]
  · norm_num [hc]

/-- C1 (amended): `check_gpu_psu` computes
`total_power = gpu_tdp + cpu_tdp + 150` (gpu tdp defaulting to 200, cpu tdp
to 125 when a CPU is supplied, else 0) and accepts iff the PSU wattage is
at least `int(total_power * 1.25)` — the truncation, not the ceiling — and
`check_full_build` likewise reports
`recommended_psu = int(total_power * 1.25)`. -/
theorem c1_recommended_psu_truncation :
    (∀ (gpu psu : Component) (cpu : Option Component),
      (check_gpu_psu gpu psu cpu).1 =
        decide ((pyInt ((pyOrNum gpu.specs.tdp (gpu.tdp.getD 200)
            + (match cpu with
               | some c => pyOrNum c.specs.tdp (c.tdp.getD 125)
               | none => 0) + 150) * 1.25) : ℚ)
          ≤ pyOrNum psu.specs.wattage (psu.wattage.getD 0)))
    ∧ ∀ b : Build, (check_full_build b).recommended_psu =
        pyInt ((check_full_build b).total_power * 1.25) := by
  constructor
  · intro gpu psu cpu
    rcases cpu with _ | c <;>
    · simp only [check_gpu_psu]
      split
      next h => exact (decide_eq_true h).symm
      next h => exact (decide_eq_false h).symm
  · intro b
    rfl

/-- C2 (counterexample): a build whose CPU carries no `tdp` reports
`total_power = 150`, not the `125 + 150 = 275` the claim's §4.1 fallback
rule would give — `check_full_build` defaults the tdp to 0, not 125. -/
theorem c2_default_tdp_counterexample :
    (check_full_build { cpu := some { name := some "i5" } }).total_power = 150
    ∧ (check_full_build { cpu := some { name := some "i5" } }).total_power ≠ 275 := by
  constructor
  · norm_num [check_full_build, pyOrNum]
  · norm_num [check_full_build, pyOrNum]

/-- C2 (amended): `check_full_build` reports
`total_power = cpu_tdp + gpu_tdp + 150` where each tdp falls back to the
top-level field and then to a default of 0 (not the 125/200 defaults of
the pairwise checkers of §4.1). -/
theorem c2_total_power_zero_defaults (b : Build) :
    (check_full_build b).total_power =
      (match b.cpu with
       | some c => pyOrNum c.specs.tdp (c.tdp.getD 0)
       | none => 0)
      + (match b.gpu with
         | some g => pyOrNum g.specs.tdp (g.tdp.getD 0)
         | none => 0) + 150 := rfl

/-- C3 (counterexample): a component with no rating data at all scores 40,
not the 50 the claim states — the neutral base of 50 is still multiplied
by 0.8. -/
theorem c3_no_rating_counterexample :
    calculate_popularity_score {} = 40 ∧ (40 : ℚ) ≠ 50 := by
  constructor
  · norm_num [calculate_popularity_score, effectiveAverageRating, effectiveReviewCount,
      min_def]
  · norm_num

/-- C3 (amended): with no rating data at all the popularity sub-score is
40 (the neutral rating base 50 enters the total as `50 * 0.8`); with a
nonzero average rating present the sub-score equals
`min(100, (average/5)*100*0.8 + min(20, count/50*20))` as claimed. -/
theorem c3_popularity_formula (c : Component) :
    (c.rating = none → c.average_rating = none → c.review_count = none →
      calculate_popularity_score c = 40)
    ∧ (effectiveAverageRating c ≠ 0 →
      calculate_popularity_score c =
        min 100 (effectiveAverageRating c / 5 * 100 * 0.8
          + min 20 (effectiveReviewCount c / 50 * 20))) := by
  constructor
  · intro h1 h2 h3
    norm_num [calculate_popularity_score, effectiveAverageRating, effectiveReviewCount,
      h1, h2, h3, min_def]
  · intro h
    simp only [calculate_popularity_score, if_neg h]

/-- Witness for C3: the no-data case evaluates to 40 and a rated component
(4 stars, 100 reviews) follows the formula. -/
theorem c3_popularity_formula_witness :
    calculate_popularity_score {} = 40
    ∧ calculate_popularity_score { rating := some { average := some 4, count := some 100 } } =
        min 100 ((4 : ℚ) / 5 * 100 * 0.8 + min 20 ((100 : ℚ) / 50 * 20)) := by
  constructor
  · exact (c3_popularity_formula {}).1 rfl rfl rfl
  · have h := (c3_popularity_formula
      { rating := some { average := some 4, count := some 100 } }).2
      (by norm_num [effectiveAverageRating])
    rw [h]
    norm_num [effectiveAverageRating, effectiveReviewCount]

/-- C4 (counterexample): a component with NO `performance_tier` field is
scored against the default tier `mid-range`, so against target `budget` it
scores 70, not the 50 the claim states for an absent tier. -/
theorem c4_absent_tier_counterexample :
    calculate_tier_match_score {} "budget" = 70 ∧ (70 : ℚ) ≠ 50 := by
  constructor
  · simp [calculate_tier_match_score, tierIndex]
  · norm_num

/-- C4 (amended): over targets in [budget, mid-range, high-end], the
tier-match sub-score is 100/70/40 for ordinal distance 0/1/≥2; a component
with an ABSENT tier is treated as `mid-range` (not scored 50); only a
present-but-unparseable tier scores 50. -/
theorem c4_tier_match_semantics (c : Component) (t : String)
    (_ht : t = "budget" ∨ t = "mid-range" ∨ t = "high-end") :
    (c.performance_tier = none →
      calculate_tier_match_score c t =
        calculate_tier_match_score { performance_tier := some "mid-range" } t)
    ∧ (∀ s, c.performance_tier = some s → tierIndex s = none →
        calculate_tier_match_score c t = 50)
    ∧ (∀ s i j, c.performance_tier = some s → tierIndex s = some i → tierIndex t = some j →
        calculate_tier_match_score c t =
          if i = j then 100 else if i = j + 1 ∨ j = i + 1 then 70 else 40) := by
  refine ⟨?_, ?_, ?_⟩
  · intro h
    simp only [calculate_tier_match_score, h, Option.getD_none, Option.getD_some]
  · intro s hs hn
    simp only [calculate_tier_match_score, hs, Option.getD_some, hn]
  · intro s i j hs hi hj
    simp only [calculate_tier_match_score, hs, Option.getD_some, hi, hj]

/-- Witness for C4: an absent tier behaves as mid-range, an unparseable
tier scores 50, and high-end against budget target scores 40. -/
theorem c4_tier_match_semantics_witness :
    calculate_tier_match_score {} "budget" =
      calculate_tier_match_score { performance_tier := some "mid-range" } "budget"
    ∧ calculate_tier_match_score { performance_tier := some "ultra" } "budget" = 50
    ∧ calculate_tier_match_score { performance_tier := some "high-end" } "budget" = 40 := by
  refine ⟨(c4_tier_match_semantics {} "budget" (Or.inl rfl)).1 rfl, ?_, ?_⟩
  · exact (c4_tier_match_semantics { performance_tier := some "ultra" } "budget"
      (Or.inl rfl)).2.1 "ultra" rfl (by simp [tierIndex])
  · have h := (c4_tier_match_semantics { performance_tier := some "high-end" } "budget"
      (Or.inl rfl)).2.2 "high-end" 2 0 rfl (by simp [tierIndex]) (by simp [tierIndex])
    rw [h]
    norm_num

/-- C5 (confirmed): when either socket (nested spec falling back to the
top-level field) is missing or empty, `check_cpu_motherboard` returns
incompatible with the missing-socket-information message — as a total
function, never an exception; when both are present and non-empty it is
compatible exactly when the socket strings are equal (case-sensitive
string equality). -/
theorem c5_socket_equality (cpu mb : Component) :
    (strTruthy (pyOrStr cpu.specs.socket cpu.socket) = false ∨
        strTruthy (pyOrStr mb.specs.socket mb.socket) = false →
      check_cpu_motherboard cpu mb = (false, Msg.missingSocket))
    ∧ (strTruthy (pyOrStr cpu.specs.socket cpu.socket) = true →
        strTruthy (pyOrStr mb.specs.socket mb.socket) = true →
      (check_cpu_motherboard cpu mb).1 =
        decide (pyOrStr cpu.specs.socket cpu.socket = pyOrStr mb.specs.socket mb.socket)) := by
  constructor
  · intro h
    rcases h with h | h <;> simp [check_cpu_motherboard, h]
  · intro h1 h2
    simp only [check_cpu_motherboard, h1, h2, Bool.not_true, Bool.or_self, Bool.false_eq_true,
      if_false]
    split
    next h => exact (decide_eq_true h).symm
    next h => exact (decide_eq_false h).symm

/-- Witness for C5: a build missing the motherboard socket fails with the
missing-socket message; equal sockets are compatible, differing ones are
not. -/
theorem c5_socket_equality_witness :
    check_cpu_motherboard { socket := some "AM5" } {} = (false, Msg.missingSocket)
    ∧ (check_cpu_motherboard { socket := some "AM5" } { socket := some "AM5" }).1 = true
    ∧ (check_cpu_motherboard { socket := some "AM5" } { socket := some "AM4" }).1 = false := by
  refine ⟨(c5_socket_equality { socket := some "AM5" } {}).1 (Or.inr rfl), ?_, ?_⟩
  · exact ((c5_socket_equality { socket := some "AM5" } { socket := some "AM5" }).2
      rfl rfl).trans (by simp [pyOrStr])
  · exact ((c5_socket_equality { socket := some "AM5" } { socket := some "AM4" }).2
      rfl rfl).trans (by simp [pyOrStr])

/-- C6 (confirmed): the scorer's weights are exactly
tier_match 0.25, value_score 0.25, popularity 0.20, power_efficiency 0.15,
future_proof 0.15, summing to exactly 1; the total is the weighted sum of
the five sub-scores rounded to one decimal, and the breakdown returns each
sub-score rounded to one decimal. -/
theorem c6_weighted_total (c : Component) (ct tt : String) :
    WEIGHTS = { tier_match := 0.25, value_score := 0.25, popularity := 0.20,
                power_efficiency := 0.15, future_proof := 0.15 }
    ∧ WEIGHTS.tier_match + WEIGHTS.value_score + WEIGHTS.popularity
        + WEIGHTS.power_efficiency + WEIGHTS.future_proof = 1
    ∧ (calculate_total_score c ct tt).total =
        pyRound1 (calculate_tier_match_score c tt * WEIGHTS.tier_match
          + calculate_value_score c ct * WEIGHTS.value_score
          + calculate_popularity_score c * WEIGHTS.popularity
          + calculate_power_efficiency_score c * WEIGHTS.power_efficiency
          + calculate_future_proof_score c ct * WEIGHTS.future_proof)
    ∧ (calculate_total_score c ct tt).breakdown =
        { tier_match := pyRound1 (calculate_tier_match_score c tt),
          value_score := pyRound1 (calculate_value_score c ct),
          popularity := pyRound1 (calculate_popularity_score c),
          power_efficiency := pyRound1 (calculate_power_efficiency_score c),
          future_proof := pyRound1 (calculate_future_proof_score c ct) } :=
  ⟨rfl, by norm_num [WEIGHTS], rfl, rfl⟩

/-- C7 (counterexample): two candidates whose totals both round to 70.5
(prices 100.4 and 100) are returned with the MORE expensive one first when
it comes first in the input — the sort is stable on input order and does
not break ties by lower price as the claim states. -/
theorem c7_price_tiebreak_counterexample :
    (rank_candidates [cvHigh, cvLow] "CPU" "mid-range").map (fun s => s.component.price)
      = [some (502/5 : ℚ), some 100]
    ∧ (scoreAttach cvHigh "CPU" "mid-range").recommendation_score
      = (scoreAttach cvLow "CPU" "mid-range").recommendation_score
    ∧ (100 : ℚ) < 502/5 := by
  have h704 : (⌊(7049/10 : ℚ)⌋ : ℤ) = 704 := floorQ_eq _ _ (by norm_num) (by norm_num)
  have h705 : (⌊(705 : ℚ)⌋ : ℤ) = 705 := floorQ_eq _ _ (by norm_num) (by norm_num)
  have ht : calculate_tier_match_score cvHigh "mid-range" = 100 := by
    simp [calculate_tier_match_score, cvHigh, tierIndex]
  have htL : calculate_tier_match_score cvLow "mid-range" = 100 := by
    simp [calculate_tier_match_score, cvLow, tierIndex]
  have hv : calculate_value_score cvHigh "CPU" = 2249/25 := by
    simp [calculate_value_score, cvHigh, TIER_THRESHOLDS]
    norm_num [min_def, max_def]
  have hvL : calculate_value_score cvLow "CPU" = 90 := by
    simp [calculate_value_score, cvLow, TIER_THRESHOLDS]
    norm_num [min_def, max_def]
  have hp : calculate_popularity_score cvHigh = 40 := by
    norm_num [calculate_popularity_score, effectiveAverageRating, effectiveReviewCount,
      cvHigh, min_def]
  have hpL : calculate_popularity_score cvLow = 40 := by
    norm_num [calculate_popularity_score, effectiveAverageRating, effectiveReviewCount,
      cvLow, min_def]
  have hpe : calculate_power_efficiency_score cvHigh = 50 := by
    norm_num [calculate_power_efficiency_score, cvHigh, pyOrNum]
  have hpeL : calculate_power_efficiency_score cvLow = 50 := by
    norm_num [calculate_power_efficiency_score, cvLow, pyOrNum]
  have hf : calculate_future_proof_score cvHigh "CPU" = 50 := by
    simp [calculate_future_proof_score, cvHigh, pyOrStrD]
    norm_num [min_def]
  have hfL : calculate_future_proof_score cvLow "CPU" = 50 := by
    simp [calculate_future_proof_score, cvLow, pyOrStrD]
    norm_num [min_def]
  have hrA : pyRound1 (7049/100) = 141/2 := by
    unfold pyRound1 roundHalfEven
    rw [(by norm_num : ((7049 : ℚ)/100) * 10 = 7049/10), h704]
    norm_num
  have hrB : pyRound1 (141/2) = 141/2 := by
    unfold pyRound1 roundHalfEven
    rw [(by norm_num : ((141 : ℚ)/2) * 10 = 705), h705]
    norm_num
  have hA : (calculate_total_score cvHigh "CPU" "mid-range").total = 141/2 := by
    simp only [calculate_total_score, ht, hv, hp, hpe, hf, WEIGHTS]
    rw [(by norm_num : (100 : ℚ) * 0.25 + 2249/25 * 0.25 + 40 * 0.20 + 50 * 0.15 + 50 * 0.15
      = 7049/100)]
    exact hrA
  have hB : (calculate_total_score cvLow "CPU" "mid-range").total = 141/2 := by
    simp only [calculate_total_score, htL, hvL, hpL, hpeL, hfL, WEIGHTS]
    rw [(by norm_num : (100 : ℚ) * 0.25 + 90 * 0.25 + 40 * 0.20 + 50 * 0.15 + 50 * 0.15
      = 141/2)]
    exact hrB
  refine ⟨?_, by simp [scoreAttach, hA, hB], by norm_num⟩
  simp only [rank_candidates, List.map_cons, List.map_nil, sortByScoreDesc,
    List.foldl_cons, List.foldl_nil, scoreAttach, hA, hB, insertDesc]
  rw [if_neg (lt_irrefl ((141 : ℚ)/2))]
  simp [cvHigh, cvLow]

/-- C7 (amended): the ranking step returns the scored candidates sorted by
total recommendation score descending; candidates with equal scores keep
their input order (the sort is stable) — they are NOT re-ordered by price;
the empty list maps to the empty list and a single candidate to itself
with its computed score attached. -/
theorem c7_ranking_sorted_stable (component_type target_tier : String) (l : List Component) :
    rank_candidates [] component_type target_tier = []
    ∧ (∀ c, rank_candidates [c] component_type target_tier =
        [scoreAttach c component_type target_tier])
    ∧ (rank_candidates l component_type target_tier).Perm
        (l.map fun c => scoreAttach c component_type target_tier)
    ∧ (rank_candidates l component_type target_tier).Sorted scoreGE
    ∧ ∀ q : ℚ, (rank_candidates l component_type target_tier).filter
          (fun s => decide (s.recommendation_score = q))
        = (l.map fun c => scoreAttach c component_type target_tier).filter
          (fun s => decide (s.recommendation_score = q)) := by
  refine ⟨rfl, fun c => rfl, ?_, ?_, ?_⟩
  · simpa using foldl_insertDesc_perm (l.map fun c => scoreAttach c component_type target_tier) []
  · exact foldl_insertDesc_sorted _ [] List.sorted_nil
  · intro q
    simpa using foldl_insertDesc_filter q
      (l.map fun c => scoreAttach c component_type target_tier) [] List.sorted_nil

/-- C8 (confirmed): the empty build yields overall compatibility true, no
checks, no warnings, and a total power of exactly 150 W. -/
theorem c8_empty_build :
    (check_full_build {}).compatible = true ∧ (check_full_build {}).checks = []
    ∧ (check_full_build {}).warnings = [] ∧ (check_full_build {}).total_power = 150 := by
  refine ⟨rfl, rfl, rfl, ?_⟩
  norm_num [check_full_build]

/-- C9 (confirmed): in every report of `check_full_build`, the top-level
compatible flag is true exactly when every appended check has
compatible = true; warnings (and the always-compatible GPU-motherboard
info check) never flip it. -/
theorem c9_overall_iff_all_checks (b : Build) :
    (check_full_build b).compatible =
      (check_full_build b).checks.all (fun cr => cr.compatible) := by
  obtain ⟨cpu, mb, gpu, psu, ram⟩ := b
  rcases cpu with _ | c <;> rcases mb with _ | m <;> rcases gpu with _ | g <;>
    rcases psu with _ | p <;> rcases ram with _ | r <;>
      simp [check_full_build, check_gpu_motherboard_fst, ram_warn_or, Bool.and_assoc]

/-- C10 (confirmed): a falsy `specs.tdp` (in particular 0) falls through
to the top-level `tdp` field and then to the 125 W default, so a CPU with
`specs.tdp = 0` and no top-level tdp is accepted exactly when the PSU
wattage is at least 125 + 100 = 225 W. -/
theorem c10_zero_spec_tdp_default (cpu psu : Component) (h0 : cpu.specs.tdp = some 0) :
    ((check_cpu_psu cpu psu).1 =
      decide ((cpu.tdp.getD 125 + 100 : ℚ) ≤ pyOrNum psu.specs.wattage (psu.wattage.getD 0)))
    ∧ (cpu.tdp = none →
      (check_cpu_psu cpu psu).1 =
        decide ((225 : ℚ) ≤ pyOrNum psu.specs.wattage (psu.wattage.getD 0))) := by
  have hb : pyOrNum cpu.specs.tdp (cpu.tdp.getD 125) = cpu.tdp.getD 125 := by
    rw [h0]; simp [pyOrNum]
  have hmain : (check_cpu_psu cpu psu).1 =
      decide ((cpu.tdp.getD 125 + 100 : ℚ) ≤ pyOrNum psu.specs.wattage (psu.wattage.getD 0)) := by
    simp only [check_cpu_psu, hb]
    split
    next h => exact (decide_eq_true h).symm
    next h => exact (decide_eq_false h).symm
  refine ⟨hmain, fun hn => ?_⟩
  rw [hmain, hn]
  norm_num

/-- Witness for C10: a CPU with `specs.tdp = 0` and no top-level tdp,
against a 225 W PSU. -/
theorem c10_zero_spec_tdp_default_witness :
    (check_cpu_psu { specs := { tdp := some 0 } } { specs := { wattage := some 225 } }).1 =
      decide ((225 : ℚ) ≤ pyOrNum (some 225) ((none : Option ℚ).getD 0)) := by
  exact (c10_zero_spec_tdp_default { specs := { tdp := some 0 } }
    { specs := { wattage := some 225 } } rfl).2 rfl
